import Mathlib

/-!
Verification of `tools/convert-icon.py`, a utility that converts a raster
image into a multi-resolution `.ico` icon container.

The script is a thin wrapper around an image library (`PIL`):

  def convert_to_ico(source, target):
      if not os.path.exists(source):
          print(f"Source file {source} not found.")
          return
      img = Image.open(source)
      img.save(target, format='ICO', sizes=[(256,256),(128,128),(64,64),(48,48),(32,32),(16,16)])
      print(f"Created {target} from {source}")

  if __name__ == "__main__":
      convert_to_ico('icon-512.png', 'app.ico')

We embed the script shallowly.  The filesystem is a map from path strings
to file data; the image library — which is external third-party code, not
part of this repository — is modelled abstractly, following the spec's
description of its behavior: `Image.open` decodes a raster image file or
raises, and `save(..., format='ICO', sizes=...)` deterministically writes
an icon container embedding one resampled bitmap per requested size, or
raises on an unwritable target.  Python exceptions are modelled with
`Except`; a Python function's return value is a `PyValue` (the script only
ever returns `None`).
-/

namespace ProjectCalm

/-- An in-memory decoded bitmap.  `content` abstracts the pixel data; the
resampling model keeps it, so that a resampled image is "the same content"
at a different resolution. -/
structure Image where
  width : Nat
  height : Nat
  content : Nat
deriving DecidableEq, Repr

/-- Modelled from the spec: the image library's deterministic resampling of
a bitmap to a target (width, height). -/
def resample (img : Image) (size : Nat × Nat) : Image :=
  ⟨size.1, size.2, img.content⟩

/-- An icon container: a list of embedded bitmaps, in the order they were
requested at save time. -/
structure IcoFile where
  images : List Image
deriving DecidableEq, Repr

/-- The data a path can hold on the modelled filesystem: opaque
non-image bytes, a decodable raster image, an icon container, or a
directory entry (exists, but is not a readable image file). -/
inductive FileData where
  | raw (blob : Nat)
  | image (img : Image)
  | ico (f : IcoFile)
  | dir
deriving DecidableEq, Repr

/-- Modelled from the spec: `Image.open` succeeds exactly on files that
hold a decodable raster image; on anything else (opaque bytes, a
directory, or this model's icon containers, which the script never
re-opens) it raises. -/
def decodeFile : FileData → Option Image
  | FileData.image img => some img
  | _ => none

/-- Modelled from the spec: saving with `format='ICO'` and an explicit
`sizes` list embeds one resampling of the source bitmap per requested
size, in order. -/
def icoEncode (img : Image) (sizes : List (Nat × Nat)) : FileData :=
  FileData.ico ⟨sizes.map (resample img)⟩

/-- The filesystem state: what each path holds (`none` = path does not
exist), and which paths the process may write. -/
structure FS where
  files : String → Option FileData
  writable : String → Bool

/-- `os.path.exists`. -/
def os_path_exists (fs : FS) (p : String) : Bool :=
  (fs.files p).isSome

/-- The value a Python function call evaluates to. -/
inductive PyValue where
  | pyNone
  | pyBool (b : Bool)
  | pyStr (s : String)
deriving DecidableEq, Repr

/-- The uncaught errors the script can propagate: a failure of
`Image.open` on the named source, or of `save` on the named target. -/
inductive PyError where
  | openError (path : String)
  | saveError (path : String)
deriving DecidableEq, Repr

/-- The observable effects of one call to `convert_to_ico`: the filesystem
afterwards, the paths whose contents were read, the lines printed to the
console, and the outcome (a returned value, or a propagated error). -/
structure CallResult where
  fs : FS
  reads : List String
  printed : List String
  outcome : Except PyError PyValue

/-- The fixed `sizes` list passed to `save` (line 10 of the script). -/
def SIZES : List (Nat × Nat) :=
  [(256, 256), (128, 128), (64, 64), (48, 48), (32, 32), (16, 16)]

/-- Shallow embedding of `convert_to_ico(source, target)`:
missing source → print a message and return `None`;
otherwise open (raising on a non-image), save the six-size icon to
`target` (raising on an unwritable target), and print a confirmation. -/
def convert_to_ico (fs : FS) (source target : String) : CallResult :=
  match fs.files source with
  | none =>
      { fs := fs
        reads := []
        printed := ["Source file " ++ source ++ " not found."]
        outcome := Except.ok PyValue.pyNone }
  | some fd =>
      match decodeFile fd with
      | none =>
          { fs := fs
            reads := [source]
            printed := []
            outcome := Except.error (PyError.openError source) }
      | some img =>
          if fs.writable target then
            { fs :=
                { files := fun p =>
                    if p = target then some (icoEncode img SIZES) else fs.files p
                  writable := fs.writable }
              reads := [source]
              printed := ["Created " ++ target ++ " from " ++ source]
              outcome := Except.ok PyValue.pyNone }
          else
            { fs := fs
              reads := [source]
              printed := []
              outcome := Except.error (PyError.saveError target) }

/-- The single call the `__main__` entry point makes, with its two
hardcoded literal arguments (line 14 of the script). -/
def main_calls : List (String × String) :=
  [("icon-512.png", "app.ico")]

/-- Running the script as the main module: perform each call of
`main_calls` in sequence on the filesystem, stopping at the first
propagated error. -/
def run_main (fs : FS) : CallResult :=
  main_calls.foldl
    (fun acc args =>
      match acc.outcome with
      | Except.error _ => acc
      | Except.ok _ =>
          let r := convert_to_ico acc.fs args.1 args.2
          { fs := r.fs
            reads := acc.reads ++ r.reads
            printed := acc.printed ++ r.printed
            outcome := r.outcome })
    { fs := fs, reads := [], printed := [], outcome := Except.ok PyValue.pyNone }

/-! ### Concrete filesystems used by the witnesses -/

/-- A filesystem holding a single 512×512 raster image at
`icon-512.png`; every path is writable. -/
def fsGood : FS :=
  { files := fun p =>
      if p = "icon-512.png" then some (FileData.image ⟨512, 512, 7⟩) else none
    writable := fun _ => true }

/-- A filesystem holding opaque non-image bytes at `notes.txt`; every
path is writable. -/
def fsRaw : FS :=
  { files := fun p => if p = "notes.txt" then some (FileData.raw 3) else none
    writable := fun _ => true }

/-- The empty filesystem: no path exists. -/
def fsEmpty : FS :=
  { files := fun _ => none
    writable := fun _ => true }

/-- A filesystem where `assets` is a directory. -/
def fsDir : FS :=
  { files := fun p => if p = "assets" then some FileData.dir else none
    writable := fun _ => true }

/-! ### The claims -/

/-- Claim C1: for every source path holding a valid raster image and
every writable target path, `convert_to_ico` leaves at the target a valid
icon container embedding exactly six images, at the fixed ordered square
resolutions (256,256),(128,128),(64,64),(48,48),(32,32),(16,16). -/
theorem C1_six_fixed_resolutions (fs : FS) (source target : String) (img : Image)
    (hs : fs.files source = some (FileData.image img))
    (hw : fs.writable target = true) :
    ∃ f : IcoFile,
      (convert_to_ico fs source target).fs.files target = some (FileData.ico f) ∧
      f.images.length = 6 ∧
      f.images.map (fun i => (i.width, i.height)) =
        [(256, 256), (128, 128), (64, 64), (48, 48), (32, 32), (16, 16)] := by
  refine ⟨⟨SIZES.map (resample img)⟩, ?_, ?_, ?_⟩
  · simp [convert_to_ico, hs, decodeFile, hw, icoEncode]
  · simp [SIZES]
  · simp [SIZES, resample]

/-- Witness for C1 at a concrete filesystem: a 512×512 image at
`icon-512.png`, writable `app.ico`. -/
theorem C1_six_fixed_resolutions_witness :
    ∃ f : IcoFile,
      (convert_to_ico fsGood "icon-512.png" "app.ico").fs.files "app.ico" =
        some (FileData.ico f) ∧
      f.images.length = 6 ∧
      f.images.map (fun i => (i.width, i.height)) =
        [(256, 256), (128, 128), (64, 64), (48, 48), (32, 32), (16, 16)] :=
  C1_six_fixed_resolutions fsGood "icon-512.png" "app.ico" ⟨512, 512, 7⟩ rfl rfl

/-- Claim C2: for every source path that does not exist, `convert_to_ico`
reads no file, leaves the filesystem unchanged, prints exactly one
message that contains the source path, and returns normally (with
`None`). -/
theorem C2_missing_source_noop (fs : FS) (source target : String)
    (hs : fs.files source = none) :
    (convert_to_ico fs source target).reads = [] ∧
    (convert_to_ico fs source target).fs = fs ∧
    (∃ pre post,
      (convert_to_ico fs source target).printed = [pre ++ source ++ post]) ∧
    (convert_to_ico fs source target).outcome = Except.ok PyValue.pyNone := by
  refine ⟨?_, ?_, ⟨"Source file ", " not found.", ?_⟩, ?_⟩ <;>
    simp [convert_to_ico, hs]

/-- Witness for C2 on the empty filesystem. -/
theorem C2_missing_source_noop_witness :
    (convert_to_ico fsEmpty "icon-512.png" "app.ico").reads = [] ∧
    (convert_to_ico fsEmpty "icon-512.png" "app.ico").fs = fsEmpty ∧
    (∃ pre post,
      (convert_to_ico fsEmpty "icon-512.png" "app.ico").printed =
        [pre ++ "icon-512.png" ++ post]) ∧
    (convert_to_ico fsEmpty "icon-512.png" "app.ico").outcome =
      Except.ok PyValue.pyNone :=
  C2_missing_source_noop fsEmpty "icon-512.png" "app.ico" rfl

/-- Claim C3: for every source path that exists, `convert_to_ico`
propagates an uncaught error if and only if decoding the source fails or
the target is not writable; and whenever it errors, the filesystem is
untouched (no empty or invalid output is produced). -/
theorem C3_error_iff_decode_or_write_fails (fs : FS) (source target : String)
    (hs : (fs.files source).isSome = true) :
    ((∃ e, (convert_to_ico fs source target).outcome = Except.error e) ↔
      ((fs.files source).bind decodeFile = none ∨ fs.writable target = false)) ∧
    (∀ e, (convert_to_ico fs source target).outcome = Except.error e →
      (convert_to_ico fs source target).fs = fs) := by
  rcases hsrc : fs.files source with _ | fd
  · rw [hsrc] at hs
    simp at hs
  · rcases hdec : decodeFile fd with _ | img
    · refine ⟨?_, ?_⟩
      · simp [convert_to_ico, hsrc, hdec]
      · intro e _
        simp [convert_to_ico, hsrc, hdec]
    · by_cases hw : fs.writable target = true
      · refine ⟨?_, ?_⟩
        · simp [convert_to_ico, hsrc, hdec, hw]
        · intro e he
          simp [convert_to_ico, hsrc, hdec, hw] at he
      · refine ⟨?_, ?_⟩
        · simp [convert_to_ico, hsrc, hdec, hw]
        · intro e _
          simp [convert_to_ico, hsrc, hdec, hw]

/-- Witness for C3 at a concrete filesystem: `notes.txt` exists but holds
non-image bytes, so the call must error. -/
theorem C3_error_iff_decode_or_write_fails_witness :
    ((∃ e, (convert_to_ico fsRaw "notes.txt" "app.ico").outcome = Except.error e) ↔
      ((fsRaw.files "notes.txt").bind decodeFile = none ∨
        fsRaw.writable "app.ico" = false)) ∧
    (∀ e, (convert_to_ico fsRaw "notes.txt" "app.ico").outcome = Except.error e →
      (convert_to_ico fsRaw "notes.txt" "app.ico").fs = fsRaw) :=
  C3_error_iff_decode_or_write_fails fsRaw "notes.txt" "app.ico" rfl

/-- Claim C4: for every valid raster image at the source, the largest
image embedded in the icon written to the target is the source resampled
to 256×256 — it comes first, every other embedded image is no larger,
and it carries the source's content. -/
theorem C4_largest_is_source_at_256 (fs : FS) (source target : String) (img : Image)
    (hs : fs.files source = some (FileData.image img))
    (hw : fs.writable target = true) :
    ∃ f : IcoFile,
      (convert_to_ico fs source target).fs.files target = some (FileData.ico f) ∧
      f.images.head? = some (resample img (256, 256)) ∧
      ∀ i ∈ f.images, i.width ≤ 256 ∧ i.height ≤ 256 ∧ i.content = img.content := by
  refine ⟨⟨SIZES.map (resample img)⟩, ?_, ?_, ?_⟩
  · simp [convert_to_ico, hs, decodeFile, hw, icoEncode]
  · simp [SIZES]
  · intro i hi
    simp only [SIZES, List.map, List.mem_cons, List.not_mem_nil, or_false] at hi
    rcases hi with h | h | h | h | h | h <;> subst h <;> simp [resample]

/-- Witness for C4 at a concrete filesystem: the 512×512 image at
`icon-512.png`, converted to `app.ico`. -/
theorem C4_largest_is_source_at_256_witness :
    ∃ f : IcoFile,
      (convert_to_ico fsGood "icon-512.png" "app.ico").fs.files "app.ico" =
        some (FileData.ico f) ∧
      f.images.head? = some (resample ⟨512, 512, 7⟩ (256, 256)) ∧
      ∀ i ∈ f.images,
        i.width ≤ 256 ∧ i.height ≤ 256 ∧ i.content = (⟨512, 512, 7⟩ : Image).content :=
  C4_largest_is_source_at_256 fsGood "icon-512.png" "app.ico" ⟨512, 512, 7⟩ rfl rfl

/-- Claim C5: calling `convert_to_ico` twice in succession with the same
source and target leaves the same file at the target as the first call
did — the overwrite is deterministic, so the output is idempotent.  (This
holds for every starting filesystem, with no side condition: on every
error path the filesystem is unchanged, and on the success path the second
call rewrites the identical icon.) -/
theorem C5_idempotent_output (fs : FS) (source target : String) :
    (convert_to_ico (convert_to_ico fs source target).fs source target).fs.files target =
      (convert_to_ico fs source target).fs.files target := by
  rcases hsrc : fs.files source with _ | fd
  · simp [convert_to_ico, hsrc]
  · rcases hdec : decodeFile fd with _ | img
    · simp [convert_to_ico, hsrc, hdec]
    · by_cases hw : fs.writable target = true
      · by_cases hst : source = target
        · subst hst
          have h1 : convert_to_ico fs source source =
              { fs :=
                  { files := fun p =>
                      if p = source then some (icoEncode img SIZES) else fs.files p
                    writable := fs.writable }
                reads := [source]
                printed := ["Created " ++ source ++ " from " ++ source]
                outcome := Except.ok PyValue.pyNone } := by
            simp [convert_to_ico, hsrc, hdec, hw]
          rw [h1]
          simp [convert_to_ico, icoEncode, decodeFile]
        · simp [convert_to_ico, hsrc, hdec, hw, hst]
      · simp [convert_to_ico, hsrc, hdec, hw]

/-- Claim C6: on the success path (source decodes, target writable) the
call reads exactly the source, writes exactly the six-size icon encoding
of the decoded image at the target and touches no other path, prints one
confirmation line naming both paths, and returns normally. -/
theorem C6_success_path_effects (fs : FS) (source target : String) (img : Image)
    (hs : fs.files source = some (FileData.image img))
    (hw : fs.writable target = true) :
    (convert_to_ico fs source target).reads = [source] ∧
    (convert_to_ico fs source target).fs.files target = some (icoEncode img SIZES) ∧
    (∀ p, p ≠ target → (convert_to_ico fs source target).fs.files p = fs.files p) ∧
    (convert_to_ico fs source target).printed =
      ["Created " ++ target ++ " from " ++ source] ∧
    (convert_to_ico fs source target).outcome = Except.ok PyValue.pyNone := by
  refine ⟨?_, ?_, ?_, ?_, ?_⟩
  · simp [convert_to_ico, hs, decodeFile, hw]
  · simp [convert_to_ico, hs, decodeFile, hw]
  · intro p hp
    simp [convert_to_ico, hs, decodeFile, hw, hp]
  · simp [convert_to_ico, hs, decodeFile, hw]
  · simp [convert_to_ico, hs, decodeFile, hw]

/-- Witness for C6 at a concrete filesystem: converting the image at
`icon-512.png` into `app.ico`. -/
theorem C6_success_path_effects_witness :
    (convert_to_ico fsGood "icon-512.png" "app.ico").reads = ["icon-512.png"] ∧
    (convert_to_ico fsGood "icon-512.png" "app.ico").fs.files "app.ico" =
      some (icoEncode ⟨512, 512, 7⟩ SIZES) ∧
    (∀ p, p ≠ "app.ico" →
      (convert_to_ico fsGood "icon-512.png" "app.ico").fs.files p = fsGood.files p) ∧
    (convert_to_ico fsGood "icon-512.png" "app.ico").printed =
      ["Created " ++ "app.ico" ++ " from " ++ "icon-512.png"] ∧
    (convert_to_ico fsGood "icon-512.png" "app.ico").outcome =
      Except.ok PyValue.pyNone :=
  C6_success_path_effects fsGood "icon-512.png" "app.ico" ⟨512, 512, 7⟩ rfl rfl

/-- Claim C7: executed as the main module, the script performs exactly
one call to `convert_to_ico`, with the hardcoded literal arguments
`icon-512.png` (source) and `app.ico` (target), and its effects are
exactly those of that single call. -/
theorem C7_main_single_hardcoded_call :
    main_calls = [("icon-512.png", "app.ico")] ∧
    main_calls.length = 1 ∧
    ∀ fs : FS, run_main fs = convert_to_ico fs "icon-512.png" "app.ico" := by
  refine ⟨rfl, rfl, fun fs => ?_⟩
  simp only [run_main, main_calls, List.foldl]
  rcases h : convert_to_ico fs "icon-512.png" "app.ico" with ⟨rfs, rreads, rprinted, routcome⟩
  cases routcome <;> simp

/-- Claim C8: a source path that exists but is not a readable raster
image (here: a directory) passes the existence check and makes
`convert_to_ico` raise from the image-open step; the missing-file message
is not printed and the function does not return normally. -/
theorem C8_existing_directory_raises_on_open :
    os_path_exists fsDir "assets" = true ∧
    (convert_to_ico fsDir "assets" "app.ico").outcome =
      Except.error (PyError.openError "assets") ∧
    (convert_to_ico fsDir "assets" "app.ico").printed = [] := by
  refine ⟨rfl, ?_, ?_⟩ <;> rfl

/-- Claim C9: on every normally-returning path, `convert_to_ico` returns
`None`; the caller cannot distinguish the success path from the handled
missing-file path by the returned value. -/
theorem C9_always_returns_none (fs : FS) (source target : String) (v : PyValue)
    (h : (convert_to_ico fs source target).outcome = Except.ok v) :
    v = PyValue.pyNone := by
  rcases hsrc : fs.files source with _ | fd
  · simp [convert_to_ico, hsrc] at h
    exact h.symm
  · rcases hdec : decodeFile fd with _ | img
    · simp [convert_to_ico, hsrc, hdec] at h
    · by_cases hw : fs.writable target = true
      · simp [convert_to_ico, hsrc, hdec, hw] at h
        exact h.symm
      · simp [convert_to_ico, hsrc, hdec, hw] at h

/-- Witness for C9 at a concrete input: the missing-source path of the
empty filesystem returns `None`. -/
theorem C9_always_returns_none_witness : PyValue.pyNone = PyValue.pyNone :=
  C9_always_returns_none fsEmpty "icon-512.png" "app.ico" PyValue.pyNone rfl

end ProjectCalm
